import Mathlib

/-!
# Koa application core (`lib/application.js`)

A shallow embedding of the request-dispatch core: the response writer `respond`,
the dispatcher `handleRequest`, middleware registration `use`, the default error
handler `onerror` and the context factory `createContext`.

Conventions of the embedding:

* JavaScript values are represented by small inductive types that keep exactly the
  distinctions the source tests (`null == body`, `Buffer.isBuffer`, `typeof`,
  `instanceof Stream`, truthiness).
* Mutation is explicit state passing; a call that may throw returns an `Except`
  together with the state reached when it returned or threw.
* Calls on the transport response (`res.end`, `body.pipe(res)`) are recorded, in
  order, in the `calls` log of the response handle, whether they return or throw.
* What is not part of `lib/application.js` (`statuses`, `koa-is-json`, `JSON`,
  `Buffer`, the transport methods `res.end` and `pipe`) is a parameter, collected in
  `Host`.
-/

namespace Koa

/-! ## Values -/

/-- A thrown JavaScript error, identified by constructor name and message. -/
structure Thrown where
  name : String
  message : String
deriving DecidableEq, Repr

deriving instance DecidableEq for Except

/-- Values that are neither `null`/`undefined`, nor a Buffer, a primitive string or a
Stream: what `respond` treats as a structured body. `cyclic` stands for an object whose
graph contains itself, `fn` for a function value. -/
inductive Plain where
  | bool (b : Bool)
  | num (n : Int)
  | cyclic
  | fn
deriving DecidableEq, Repr

/-- The value of `ctx.body`, split along the tests `respond` performs on it. -/
inductive Body where
  | null
  | undefined
  | buffer (bytes : List Nat)
  | string (s : String)
  | stream (id : Nat)
  | other (v : Plain)
deriving DecidableEq, Repr

/-- The argument handed to `res.end`. -/
inductive Chunk where
  | text (s : String)
  | bytes (b : List Nat)
deriving DecidableEq, Repr

/-- One terminal call on the transport response: `res.end()` / `res.end(chunk)`, or
`body.pipe(res)` for the stream with the given identity. -/
inductive ResCall where
  | resEnd (chunk : Option Chunk)
  | pipe (src : Nat)
deriving DecidableEq, Repr

/-- The transport response handle `res`, as far as `lib/application.js` touches it. -/
structure ServerResponse where
  statusCode : Nat
  headersSent : Bool
  calls : List ResCall
deriving DecidableEq, Repr

/-- The per-request context as seen by `respond`: the properties it reads and writes.
`respond` is the opt-out flag (`none` when the property is unset). -/
structure Context where
  respond : Option Bool
  writable : Bool
  body : Body
  method : String
  message : Option String
  type : Option String
  length : Option Nat
  res : ServerResponse
deriving DecidableEq, Repr

/-- Modelled from the spec: the `status` accessor of the response view
(`lib/response.js`, not among the sources) reads the status code of the transport
response, the one `handleRequest` presets to 404. -/
def Context.status (ctx : Context) : Nat := ctx.res.statusCode

/-- The call `res.end(chunk)` entered in the log of the context's response handle. -/
def Context.resEnd (ctx : Context) (chunk : Option Chunk) : Context :=
  { ctx with res := { ctx.res with calls := ctx.res.calls ++ [ResCall.resEnd chunk] } }

/-- The call `body.pipe(res)` for the stream `src` entered in the log. -/
def Context.pipe (ctx : Context) (src : Nat) : Context :=
  { ctx with res := { ctx.res with calls := ctx.res.calls ++ [ResCall.pipe src] } }

/-- The packages and transport methods `respond` calls into.
`empty c` is the truthiness of `statuses.empty[c]`; `stringify` is `JSON.stringify`,
which throws, returns text, or returns `undefined` (`none`); `byteLength` is
`Buffer.byteLength` on a string and `byteLengthUndefined` its outcome on `undefined`;
`endOutcome ctx chunk` tells whether the call `res.end(chunk)`, made in the state `ctx`,
returns or throws, and `pipeOutcome ctx src` the same for `body.pipe(res)`. -/
structure Host where
  empty : Nat → Bool
  isJSON : Body → Bool
  stringify : Body → Except Thrown (Option String)
  byteLength : String → Nat
  byteLengthUndefined : Except Thrown Nat
  endOutcome : Context → Option Chunk → Except Thrown Unit
  pipeOutcome : Context → Nat → Except Thrown Unit

/-- The statement `return res.end(chunk)`: the call is made, and it returns or throws. -/
def Host.callEnd (host : Host) (ctx : Context) (chunk : Option Chunk) :
    Except Thrown Unit × Context :=
  (host.endOutcome ctx chunk, ctx.resEnd chunk)

/-- The statement `return body.pipe(res)`: the call is made, and it returns or throws. -/
def Host.callPipe (host : Host) (ctx : Context) (src : Nat) : Except Thrown Unit × Context :=
  (host.pipeOutcome ctx src, ctx.pipe src)

/-- The expression `Buffer.byteLength(x)` for `x` a string or `undefined`. -/
def Host.byteLengthOf (host : Host) : Option String → Except Thrown Nat
  | some s => Except.ok (host.byteLength s)
  | none => host.byteLengthUndefined

/-- The expression `m || d` for `m` a string or `undefined`: the empty string is falsy. -/
def orElse (m : Option String) (d : String) : String :=
  match m with
  | some s => if s = "" then d else s
  | none => d

/-- The argument `res.end` receives for the result of `JSON.stringify`. -/
def jsonChunk : Option String → Option Chunk
  | some s => some (Chunk.text s)
  | none => none

/-! ## The response writer -/

/-- The function `respond(ctx)` of `lib/application.js`. Returns how the call ended
(normally, or with the error thrown) and the context it leaves behind. -/
def respond (host : Host) (ctx : Context) : Except Thrown Unit × Context :=
  -- allow bypassing koa
  if ctx.respond = some false then (Except.ok (), ctx)
  else if ctx.writable = false then (Except.ok (), ctx)
  else
    let body := ctx.body
    let code := ctx.status
    -- ignore body
    if host.empty code = true then
      host.callEnd { ctx with body := Body.null } none
    else if ctx.method = "HEAD" then
      if ctx.res.headersSent = false ∧ host.isJSON body = true then
        match host.stringify body with
        | Except.error e => (Except.error e, ctx)
        | Except.ok s =>
          match host.byteLengthOf s with
          | Except.error e => (Except.error e, ctx)
          | Except.ok n => host.callEnd { ctx with length := some n } none
      else host.callEnd ctx none
    else
      match body with
      -- status body
      | Body.null | Body.undefined =>
        let text := orElse ctx.message (toString code)
        if ctx.res.headersSent = false then
          host.callEnd { ctx with type := some "text", length := some (host.byteLength text) }
            (some (Chunk.text text))
        else host.callEnd ctx (some (Chunk.text text))
      -- responses
      | Body.buffer b => host.callEnd ctx (some (Chunk.bytes b))
      | Body.string s => host.callEnd ctx (some (Chunk.text s))
      | Body.stream id => host.callPipe ctx id
      -- body: json
      | Body.other v =>
        match host.stringify (Body.other v) with
        | Except.error e => (Except.error e, ctx)
        | Except.ok s =>
          if ctx.res.headersSent = false then
            match host.byteLengthOf s with
            | Except.error e => (Except.error e, ctx)
            | Except.ok n => host.callEnd { ctx with length := some n } (jsonChunk s)
          else host.callEnd ctx (jsonChunk s)

/-- Whether `JSON.stringify` or `Buffer.byteLength` throws at a place where `respond`
applies them to the body of `ctx`: in the `HEAD` branch with headers unsent and
`isJSON(body)`, and in the final JSON branch. -/
def serialisationThrows (host : Host) (ctx : Context) : Bool :=
  if host.empty ctx.status = true then false
  else if ctx.method = "HEAD" then
    if ctx.res.headersSent = false ∧ host.isJSON ctx.body = true then
      match host.stringify ctx.body with
      | Except.error _ => true
      | Except.ok s => !(host.byteLengthOf s).toBool
    else false
  else
    match ctx.body with
    | Body.other v =>
      match host.stringify (Body.other v) with
      | Except.error _ => true
      | Except.ok s => if ctx.res.headersSent = false then !(host.byteLengthOf s).toBool else false
    | _ => false

/-- The characters Node accepts in a status message: tab, and the codes 32 to 126 and
128 to 255. -/
def validStatusChar (c : Char) : Bool :=
  c.toNat = 9 || (32 ≤ c.toNat && c.toNat ≤ 126) || (128 ≤ c.toNat && c.toNat ≤ 255)

/-- A host for evaluating the definitions on concrete inputs: the empty-body statuses
204, 205 and 304; `isJSON` false on falsy values, strings, streams and Buffers;
`JSON.stringify` on booleans and integers, throwing on a circular object and returning
`undefined` on a function. Under this host `respond` serialises only `Body.other`
values (`isJSON` is false elsewhere), so the remaining entries of `stringify` are never
consulted. The call `res.end` throws when it has to send the headers and the status
message holds a character Node rejects; `pipe` returns. -/
def sampleHost : Host where
  empty := fun c => c = 204 || c = 205 || c = 304
  isJSON := fun b =>
    match b with
    | Body.other (Plain.bool false) => false
    | Body.other (Plain.num 0) => false
    | Body.other _ => true
    | _ => false
  stringify := fun b =>
    match b with
    | Body.other (Plain.bool true) => Except.ok (some "true")
    | Body.other (Plain.bool false) => Except.ok (some "false")
    | Body.other (Plain.num n) => Except.ok (some (toString n))
    | Body.other Plain.cyclic =>
      Except.error ⟨"TypeError", "Converting circular structure to JSON"⟩
    | Body.null => Except.ok (some "null")
    | _ => Except.ok none
  byteLength := String.utf8ByteSize
  byteLengthUndefined :=
    Except.error ⟨"TypeError", "The \"string\" argument must be of type string"⟩
  endOutcome := fun ctx _ =>
    if ctx.res.headersSent = false ∧ (orElse ctx.message "").toList.all validStatusChar = false
    then Except.error ⟨"TypeError", "Invalid character in statusMessage"⟩
    else Except.ok ()
  pipeOutcome := fun _ _ => Except.ok ()

/-- A fresh response handle: status 404 as preset by `handleRequest`, nothing sent. -/
def freshRes : ServerResponse := { statusCode := 404, headersSent := false, calls := [] }

/-- A context for a `GET` request on which no middleware has set anything. -/
def freshCtx : Context :=
  { respond := none, writable := true, body := Body.undefined, method := "GET",
    message := some "Not Found", type := none, length := none, res := freshRes }

/-! ## The request dispatcher -/

/-- How the promise returned by the composed handler ends up: fulfilled, rejected with
a reason, or never settled. -/
inductive Promise where
  | fulfilled
  | rejected (e : Thrown)
  | pending
deriving DecidableEq, Repr

/-- What one run of `handleRequest` amounts to: the context, how often `respond` was
entered, the arguments `ctx.onerror` received from the promise chain (in order), and
the number of observers registered with `onFinished`. -/
structure Dispatch where
  ctx : Context
  respondCalls : Nat
  onerrorCalls : List Thrown
  finishedObservers : Nat
deriving DecidableEq, Repr

/-- The method `p.then(onFulfilled)`: the callback runs only when `p` is fulfilled, and
the derived promise is rejected when the callback throws. -/
def Promise.andThen (p : Promise) (onFulfilled : Dispatch → Except Thrown Unit × Dispatch)
    (w : Dispatch) : Promise × Dispatch :=
  match p with
  | Promise.fulfilled =>
    match onFulfilled w with
    | (Except.ok _, w1) => (Promise.fulfilled, w1)
    | (Except.error e, w1) => (Promise.rejected e, w1)
  | Promise.rejected e => (Promise.rejected e, w)
  | Promise.pending => (Promise.pending, w)

/-- The method `p.catch(onRejected)`: the callback runs only when `p` is rejected. -/
def Promise.orCatch (p : Promise)
    (onRejected : Thrown → Dispatch → Except Thrown Unit × Dispatch)
    (w : Dispatch) : Promise × Dispatch :=
  match p with
  | Promise.rejected e =>
    match onRejected e w with
    | (Except.ok _, w1) => (Promise.fulfilled, w1)
    | (Except.error e1, w1) => (Promise.rejected e1, w1)
  | Promise.fulfilled => (Promise.fulfilled, w)
  | Promise.pending => (Promise.pending, w)

/-- The closure `handleResponse = () => respond(ctx)`. -/
def handleResponse (host : Host) (w : Dispatch) : Except Thrown Unit × Dispatch :=
  let r := respond host w.ctx
  (r.1, { w with ctx := r.2, respondCalls := w.respondCalls + 1 })

/-- Modelled from the spec: the closure `onerror = err => ctx.onerror(err)`. The
context's error handler lives in `lib/context.js`, which is not among the sources;
only the fact that it was called, and with what, is recorded. -/
def ctxOnerror (err : Thrown) (w : Dispatch) : Except Thrown Unit × Dispatch :=
  (Except.ok (), { w with onerrorCalls := w.onerrorCalls ++ [err] })

/-- The statements `const res = ctx.res; res.statusCode = 404`. -/
def preset (ctx : Context) : Context := { ctx with res := { ctx.res with statusCode := 404 } }

/-- The method `handleRequest(ctx, fnMiddleware)`. The composed handler is a function
that updates the context and returns a promise; the result is the promise
`handleRequest` returns and the record of what the chain did once it is settled. -/
def handleRequest (host : Host) (ctx : Context) (fnMiddleware : Context → Context × Promise) :
    Promise × Dispatch :=
  let w0 : Dispatch :=
    { ctx := preset ctx, respondCalls := 0, onerrorCalls := [], finishedObservers := 1 }
  let r := fnMiddleware w0.ctx
  let w1 : Dispatch := { w0 with ctx := r.1 }
  let s := r.2.andThen (handleResponse host) w1
  s.1.orCatch ctxOnerror s.2

/-! ## Middleware registration -/

/-- A function value: its name and whether it is a generator function. -/
structure Fn where
  name : String
  generator : Bool
deriving DecidableEq, Repr

/-- An argument of `use`, by what `typeof` reports for it. -/
inductive Value where
  | undefined
  | null
  | boolean (b : Bool)
  | number (n : Int)
  | string (s : String)
  | object
  | function (f : Fn)
deriving DecidableEq, Repr

/-- The test `typeof v` equals the string function. -/
def Value.isFunction : Value → Bool
  | Value.function _ => true
  | _ => false

/-- Address of an object on the heap. -/
abbrev Ref := Nat

/-- The application object: the settings assigned by the constructor, the optional
settings `silent` and `keys`, the middleware sequence, and the addresses of its three
long-lived default objects. -/
structure Application where
  proxy : Bool
  middleware : List Fn
  subdomainOffset : Nat
  env : String
  silent : Bool
  keys : Option (List String)
  context : Ref
  request : Ref
  response : Ref
deriving DecidableEq, Repr

/-- The method `use(fn)`; `convert` is the adapter of the package koa-convert. The
calls to `deprecate` and `debug` only print diagnostics and are left out. Returns how
the call ended and the application it leaves behind. -/
def use (convert : Fn → Fn) (app : Application) (fn : Value) :
    Except Thrown Unit × Application :=
  match fn with
  | Value.function f =>
    let f1 := if f.generator = true then convert f else f
    (Except.ok (), { app with middleware := app.middleware ++ [f1] })
  | _ => (Except.error ⟨"TypeError", "middleware must be a function!"⟩, app)

/-! ## The default error handler -/

/-- The value of `err.status`: unset, a number, or a string. -/
inductive StatusValue where
  | undefined
  | num (n : Int)
  | str (s : String)
deriving DecidableEq, Repr

/-- The argument of `onerror`: whether it is an instance of Error, its `status`, the
truthiness of `expose`, its `stack` (if any) and its string form. -/
structure ErrorArg where
  isError : Bool
  status : StatusValue
  expose : Bool
  stack : Option String
  text : String
deriving DecidableEq, Repr

/-- The comparison `404 == status`; `toNumber` is the string-to-number conversion the
loose equality applies to a string operand. -/
def eq404 (toNumber : String → Option Int) : StatusValue → Bool
  | StatusValue.undefined => false
  | StatusValue.num n => decide (n = 404)
  | StatusValue.str s => decide (toNumber s = some 404)

/-- Line terminators, after each of which the pattern `/^/gm` matches. -/
def isLineTerminator (c : Char) : Bool :=
  c = Char.ofNat 10 || c = Char.ofNat 13 || c = Char.ofNat 0x2028 || c = Char.ofNat 0x2029

/-- Two spaces inserted after every line terminator. -/
def indentChars : List Char → List Char
  | [] => []
  | c :: cs =>
    if isLineTerminator c = true then c :: ' ' :: ' ' :: indentChars cs
    else c :: indentChars cs

/-- The expression `msg.replace(/^/gm, '  ')`. -/
def indent (msg : String) : String := String.mk (' ' :: ' ' :: indentChars msg.toList)

/-- The method `onerror(err)` of the application. Returns how the call ended and the
lines it wrote with `console.error`, in order. -/
def onerror (toNumber : String → Option Int) (app : Application) (err : ErrorArg) :
    Except Thrown Unit × List String :=
  if err.isError = false then
    (Except.error ⟨"AssertionError", "non-error thrown: " ++ err.text⟩, [])
  else if eq404 toNumber err.status = true ∨ err.expose = true then (Except.ok (), [])
  else if app.silent = true then (Except.ok (), [])
  else
    let msg := orElse err.stack err.text
    (Except.ok (), ["", indent msg, ""])

/-! ## The context factory -/

/-- The socket of a transport request. -/
structure Socket where
  remoteAddress : Option String
  encrypted : Bool
deriving DecidableEq, Repr

/-- The transport request handle `req`. -/
structure IncomingMessage where
  url : String
  headers : List (String × String)
  socket : Socket
deriving DecidableEq, Repr

/-- Property values on the heap. `app` is the application (`this`); `cookies` is the
accessor built by `new Cookies(req, res, { keys, secure })` and `accepts` the handle
built by `accepts(req)`, both kept as the arguments they were built from. -/
inductive Val where
  | undefined
  | str (s : String)
  | ref (r : Ref)
  | app
  | req (r : IncomingMessage)
  | res (r : ServerResponse)
  | cookies (req : IncomingMessage) (res : ServerResponse) (keys : Option (List String))
      (secure : Bool)
  | accepts (req : IncomingMessage)
deriving DecidableEq, Repr

/-- A heap object: its prototype and its own properties. -/
structure Obj where
  proto : Option Ref
  props : List (String × Val)
deriving DecidableEq, Repr

/-- The object heap: the objects by address and the next free address. -/
structure Heap where
  objs : Ref → Option Obj
  next : Ref

/-- The call `Object.create(proto)` (and the literal `{}` for no modelled prototype):
a new object without own properties at the next free address. -/
def Heap.create (h : Heap) (proto : Option Ref) : Heap × Ref :=
  ({ objs := fun r => if r = h.next then some { proto := proto, props := [] } else h.objs r,
     next := h.next + 1 }, h.next)

/-- The assignment `r.k = v` of a data property: it becomes an own property of `r`. -/
def Heap.set (h : Heap) (r : Ref) (k : String) (v : Val) : Heap :=
  { h with
    objs := fun x =>
      if x = r then
        (h.objs r).map fun o => { o with props := (k, v) :: o.props.filter fun p => p.1 != k }
      else h.objs x }

/-- Property lookup along the prototype chain, at most `fuel` objects deep. -/
def Heap.getFuel (h : Heap) : Nat → Ref → String → Val
  | 0, _, _ => Val.undefined
  | fuel + 1, r, k =>
    match h.objs r with
    | none => Val.undefined
    | some o =>
      match o.props.lookup k with
      | some v => v
      | none =>
        match o.proto with
        | some p => h.getFuel fuel p k
        | none => Val.undefined

/-- The read `r.k`: own property first, then the prototype chain. -/
def Heap.get (h : Heap) (r : Ref) (k : String) : Val := h.getFuel h.next r k

/-- Modelled from the spec: the accessors `secure` and `ips` of the request view
(`lib/request.js`, not among the sources), as functions of the application settings
and the transport request they read. -/
structure Accessors where
  secure : Application → IncomingMessage → Bool
  ips : Application → IncomingMessage → List String

/-- The expression `request.ips[0] || req.socket.remoteAddress || ''`. -/
def clientIp (ips : List String) (remoteAddress : Option String) : String :=
  orElse ips.head? (orElse remoteAddress "")

/-- The method `createContext(req, res)`. Returns the heap it leaves behind and the
address of the new context. -/
def createContext (acc : Accessors) (app : Application) (req : IncomingMessage)
    (res : ServerResponse) (h : Heap) : Heap × Ref :=
  let c := h.create (some app.context)
  let context := c.2
  let rq := c.1.create (some app.request)
  let request := rq.2
  let h1 := rq.1.set context "request" (Val.ref request)
  let rs := h1.create (some app.response)
  let response := rs.2
  let h2 := rs.1.set context "response" (Val.ref response)
  let h3 := ((h2.set response "app" Val.app).set request "app" Val.app).set context "app" Val.app
  let h4 := ((h3.set response "req" (Val.req req)).set request "req" (Val.req req)).set
    context "req" (Val.req req)
  let h5 := ((h4.set response "res" (Val.res res)).set request "res" (Val.res res)).set
    context "res" (Val.res res)
  let h6 := (h5.set response "ctx" (Val.ref context)).set request "ctx" (Val.ref context)
  let h7 := h6.set request "response" (Val.ref response)
  let h8 := h7.set response "request" (Val.ref request)
  let h9 := (h8.set request "originalUrl" (Val.str req.url)).set context "originalUrl"
    (Val.str req.url)
  let h10 := h9.set context "cookies" (Val.cookies req res app.keys (acc.secure app req))
  let h11 := h10.set request "ip"
    (Val.str (clientIp (acc.ips app req) req.socket.remoteAddress))
  let h12 := (h11.set request "accept" (Val.accepts req)).set context "accept" (Val.accepts req)
  let st := h12.create none
  (st.1.set context "state" (Val.ref st.2), context)

/-- The heap after the module objects of `lib/context.js`, `lib/request.js` and
`lib/response.js` (addresses 0 to 2) and the three defaults of one application
(addresses 3 to 5) have been allocated. -/
def sampleHeap : Heap :=
  { objs := fun r =>
      if r < 3 then some { proto := none, props := [] }
      else if r < 6 then some { proto := some (r - 3), props := [] }
      else none,
    next := 6 }

/-- The application the constructor builds over `sampleHeap`. -/
def sampleApp : Application :=
  { proxy := false, middleware := [], subdomainOffset := 2, env := "development",
    silent := false, keys := none, context := 3, request := 4, response := 5 }

/-- Sample accessors: `secure` is the socket's encryption flag; `ips` is the list of
forwarded addresses (kept as one header entry each) when the proxy setting is on. -/
def sampleAccessors : Accessors where
  secure := fun _ req => req.socket.encrypted
  ips := fun app req =>
    if app.proxy = true then
      (req.headers.filter fun p => p.1 == "x-forwarded-for").map fun p => p.2
    else []

/-- A transport request for the given target. -/
def sampleReq (url : String) : IncomingMessage :=
  { url := url, headers := [], socket := { remoteAddress := some "127.0.0.1", encrypted := false } }

/-- The context object `createContext` leaves at address `n`. -/
def contextObj (acc : Accessors) (app : Application) (req : IncomingMessage)
    (res : ServerResponse) (n : Ref) : Obj :=
  { proto := some app.context,
    props := [("state", Val.ref (n + 3)), ("accept", Val.accepts req),
      ("cookies", Val.cookies req res app.keys (acc.secure app req)),
      ("originalUrl", Val.str req.url), ("res", Val.res res), ("req", Val.req req),
      ("app", Val.app), ("response", Val.ref (n + 2)), ("request", Val.ref (n + 1))] }

/-- The request view `createContext` leaves at address `n + 1`. -/
def requestObj (acc : Accessors) (app : Application) (req : IncomingMessage)
    (res : ServerResponse) (n : Ref) : Obj :=
  { proto := some app.request,
    props := [("accept", Val.accepts req),
      ("ip", Val.str (clientIp (acc.ips app req) req.socket.remoteAddress)),
      ("originalUrl", Val.str req.url), ("response", Val.ref (n + 2)),
      ("ctx", Val.ref n), ("res", Val.res res), ("req", Val.req req), ("app", Val.app)] }

/-- The response view `createContext` leaves at address `n + 2`. -/
def responseObj (app : Application) (req : IncomingMessage) (res : ServerResponse)
    (n : Ref) : Obj :=
  { proto := some app.response,
    props := [("request", Val.ref (n + 1)), ("ctx", Val.ref n),
      ("res", Val.res res), ("req", Val.req req), ("app", Val.app)] }

/-- The wiring of one request, read through property lookup on heap `h`: the context
holds its two views, each view holds the context and the other view, and all three
hold the transport handles `req` and `res`. -/
def Wired (h : Heap) (context request response : Ref) (req : IncomingMessage)
    (res : ServerResponse) : Prop :=
  h.get context "request" = Val.ref request ∧ h.get context "response" = Val.ref response ∧
  h.get request "ctx" = Val.ref context ∧ h.get response "ctx" = Val.ref context ∧
  h.get request "response" = Val.ref response ∧ h.get response "request" = Val.ref request ∧
  h.get context "req" = Val.req req ∧ h.get request "req" = Val.req req ∧
  h.get response "req" = Val.req req ∧
  h.get context "res" = Val.res res ∧ h.get request "res" = Val.res res ∧
  h.get response "res" = Val.res res

/-- Two calls in a row: `createContext(req2, res2)` on the heap that
`createContext(req1, res1)` left behind. -/
def secondContext (acc : Accessors) (app : Application) (req1 : IncomingMessage)
    (res1 : ServerResponse) (req2 : IncomingMessage) (res2 : ServerResponse) (h : Heap) :
    Heap × Ref :=
  createContext acc app req2 res2 (createContext acc app req1 res1 h).1

/-! ## Concrete contexts -/

/-- A context that opted out of automatic response writing (`ctx.respond = false`),
with an empty-body status and a text body set. -/
def optedOut204 : Context :=
  { freshCtx with respond := some false, body := Body.string "x",
                  res := { freshRes with statusCode := 204 } }

/-- A context whose connection is no longer writable, with an empty-body status and a
text body set. -/
def unwritable204 : Context :=
  { freshCtx with writable := false, body := Body.string "x",
                  res := { freshRes with statusCode := 204 } }

/-- A `HEAD` request whose chain set nothing: no body, status 404, headers unsent. -/
def head404 : Context := { freshCtx with method := "HEAD" }

/-- A `GET` context with the structured body 42 and status 200. -/
def json200 : Context :=
  { freshCtx with body := Body.other (Plain.num 42), message := some "OK",
                  res := { freshRes with statusCode := 200 } }

/-- A `GET` context whose body is a circular object, status 200. -/
def cyclic200 : Context := { json200 with body := Body.other Plain.cyclic }

/-- A `GET` context with no body, status 404 and a status message outside Latin-1. -/
def nonLatin404 : Context := { freshCtx with message := some "не найдено" }

/-- A composed handler that sets nothing and fulfils. -/
def passHandler (ctx : Context) : Context × Promise := (ctx, Promise.fulfilled)

/-- A composed handler that rejects with the error `e`. -/
def failHandler (e : Thrown) (ctx : Context) : Context × Promise := (ctx, Promise.rejected e)

/-- A composed handler that sets a circular object as the body and fulfils. -/
def circularHandler (ctx : Context) : Context × Promise :=
  ({ ctx with body := Body.other Plain.cyclic }, Promise.fulfilled)

/-- An error with status 500 and a two-line stack. -/
def sampleError : ErrorArg :=
  { isError := true, status := StatusValue.num 500, expose := false,
    stack := some "Error: boom\n    at handler", text := "Error: boom" }


/-! ## Theorems: the response writer -/

/-- C6: when `ctx.respond` is `false` or `ctx.writable` is falsy, `respond` returns at
once: the context it leaves is the one it was given, so no call to `res.end` or
`body.pipe` is added and `ctx.body`, `ctx.type` and `ctx.length` are unchanged, whatever
the status, method and body. -/
theorem respond_bypass_noop (host : Host) (ctx : Context)
    (h : ctx.respond = some false ∨ ctx.writable = false) :
    respond host ctx = (Except.ok (), ctx) ∧
      (respond host ctx).2.res.calls = ctx.res.calls ∧
      (respond host ctx).2.body = ctx.body ∧
      (respond host ctx).2.type = ctx.type ∧
      (respond host ctx).2.length = ctx.length := by
  have key : respond host ctx = (Except.ok (), ctx) := by
    unfold respond
    rcases h with h | h
    · simp [h]
    · simp [h]
  simp [key]

/-- The bypass at two concrete contexts: one opted out, one not writable. -/
theorem respond_bypass_noop_witness :
    (respond sampleHost optedOut204 = (Except.ok (), optedOut204) ∧
      (respond sampleHost optedOut204).2.res.calls = optedOut204.res.calls ∧
      (respond sampleHost optedOut204).2.body = optedOut204.body ∧
      (respond sampleHost optedOut204).2.type = optedOut204.type ∧
      (respond sampleHost optedOut204).2.length = optedOut204.length) ∧
    (respond sampleHost unwritable204).2.res.calls = unwritable204.res.calls :=
  ⟨respond_bypass_noop sampleHost optedOut204 (Or.inl rfl),
   (respond_bypass_noop sampleHost unwritable204 (Or.inr rfl)).2.1⟩

/-- C1 (as amended): when the context has not opted out and is writable, and its status
is in the empty-body class, `respond` sets `ctx.body` to `null` and makes exactly the
call `res.end()` with no argument, whatever the body was; it returns or throws as that
call does. -/
theorem respond_empty_status (host : Host) (ctx : Context)
    (hr : ctx.respond ≠ some false) (hw : ctx.writable = true)
    (he : host.empty ctx.status = true) :
    (respond host ctx).1 = host.endOutcome { ctx with body := Body.null } none ∧
      (respond host ctx).2.body = Body.null ∧
      (respond host ctx).2.res.calls = ctx.res.calls ++ [ResCall.resEnd none] := by
  simp [respond, hr, hw, he, Context.resEnd, Host.callEnd]

/-- The empty-body branch at status 204 with a text body set. -/
theorem respond_empty_status_witness :
    (respond sampleHost { optedOut204 with respond := none }).1 =
        sampleHost.endOutcome
          { ({ optedOut204 with respond := none } : Context) with body := Body.null } none ∧
      (respond sampleHost { optedOut204 with respond := none }).2.body = Body.null ∧
      (respond sampleHost { optedOut204 with respond := none }).2.res.calls =
        ({ optedOut204 with respond := none } : Context).res.calls ++ [ResCall.resEnd none] :=
  respond_empty_status sampleHost { optedOut204 with respond := none } (by decide) rfl rfl

/-- C1 as stated fails: with status 204 (empty-body class) and the body "x", a context
that opted out, and one that is not writable, keep their body and see no `res.end`. -/
theorem respond_empty_status_counterexample :
    (sampleHost.empty optedOut204.status = true ∧
      (respond sampleHost optedOut204).2.body = Body.string "x" ∧
      (respond sampleHost optedOut204).2.res.calls = []) ∧
    (sampleHost.empty unwritable204.status = true ∧
      (respond sampleHost unwritable204).2.body = Body.string "x" ∧
      (respond sampleHost unwritable204).2.res.calls = []) := by
  decide

/-- C2 (as amended): for a context that has not opted out, is writable, is not a `HEAD`
request, has status 404 (not an empty-body status), a `null` or `undefined` body and
unsent headers, `respond` sets the type to 'text', sets `ctx.length` to the byte length
of the text `t` (`ctx.message` if truthy, else `String(ctx.status)`) and makes exactly
the call `res.end(t)`; it returns or throws as that call does. -/
theorem respond_status_body (host : Host) (ctx : Context)
    (hr : ctx.respond ≠ some false) (hw : ctx.writable = true)
    (hs : ctx.status = 404) (he : host.empty 404 = false)
    (hm : ctx.method ≠ "HEAD")
    (hb : ctx.body = Body.null ∨ ctx.body = Body.undefined)
    (hh : ctx.res.headersSent = false) :
    (respond host ctx).1 =
        host.endOutcome
          { ctx with type := some "text",
                     length := some (host.byteLength (orElse ctx.message (toString ctx.status))) }
          (some (Chunk.text (orElse ctx.message (toString ctx.status)))) ∧
      (respond host ctx).2.type = some "text" ∧
      (respond host ctx).2.res.calls =
        ctx.res.calls ++ [ResCall.resEnd (some (Chunk.text (orElse ctx.message (toString ctx.status))))] ∧
      (respond host ctx).2.length =
        some (host.byteLength (orElse ctx.message (toString ctx.status))) := by
  rcases hb with hb | hb <;>
    simp [respond, hr, hw, hs, he, hm, hb, hh, Context.resEnd, Host.callEnd]

/-- The status-body branch on the untouched `GET` context, and on one without a status
message. -/
theorem respond_status_body_witness :
    ((respond sampleHost freshCtx).1 =
        sampleHost.endOutcome
          { freshCtx with type := some "text",
                          length := some (sampleHost.byteLength
                            (orElse freshCtx.message (toString freshCtx.status))) }
          (some (Chunk.text (orElse freshCtx.message (toString freshCtx.status)))) ∧
      (respond sampleHost freshCtx).2.type = some "text" ∧
      (respond sampleHost freshCtx).2.res.calls =
        freshCtx.res.calls ++ [ResCall.resEnd (some (Chunk.text (orElse freshCtx.message (toString freshCtx.status))))] ∧
      (respond sampleHost freshCtx).2.length =
        some (sampleHost.byteLength (orElse freshCtx.message (toString freshCtx.status)))) ∧
    (respond sampleHost { freshCtx with message := none }).2.res.calls =
      [ResCall.resEnd (some (Chunk.text "404"))] :=
  ⟨respond_status_body sampleHost freshCtx (by decide) rfl rfl rfl (by decide) (Or.inr rfl) rfl,
   by decide⟩

/-- C2 as stated fails: with no body, status 404 and unsent headers, a `HEAD` request
is ended without a body and without type or length; a context that opted out, or is
not writable, is left untouched. -/
theorem respond_status_body_counterexample :
    (head404.body = Body.undefined ∧ head404.status = 404 ∧ head404.res.headersSent = false ∧
      (respond sampleHost head404).2.type = none ∧
      (respond sampleHost head404).2.length = none ∧
      (respond sampleHost head404).2.res.calls = [ResCall.resEnd none]) ∧
    ((respond sampleHost { freshCtx with respond := some false }).2.type = none ∧
      (respond sampleHost { freshCtx with respond := some false }).2.res.calls = []) ∧
    ((respond sampleHost { freshCtx with writable := false }).2.type = none ∧
      (respond sampleHost { freshCtx with writable := false }).2.res.calls = []) := by
  decide

/-- C3 (as amended): for a context that has not opted out, is writable, has a status
outside the empty-body class, is not a `HEAD` request, and whose body is a structured
value for which `JSON.stringify` returns the text `s`, `respond` makes exactly the call
`res.end(s)`; with headers unsent it first sets `ctx.length` to the byte length of `s`,
with headers sent it leaves `ctx.length` as it was; it returns or throws as that call
does. -/
theorem respond_json_body (host : Host) (ctx : Context) (v : Plain) (s : String)
    (hr : ctx.respond ≠ some false) (hw : ctx.writable = true)
    (he : host.empty ctx.status = false) (hm : ctx.method ≠ "HEAD")
    (hb : ctx.body = Body.other v)
    (hj : host.stringify (Body.other v) = Except.ok (some s)) :
    (respond host ctx).1 =
        host.endOutcome
          (if ctx.res.headersSent = false then { ctx with length := some (host.byteLength s) }
            else ctx)
          (some (Chunk.text s)) ∧
      (respond host ctx).2.res.calls = ctx.res.calls ++ [ResCall.resEnd (some (Chunk.text s))] ∧
      (ctx.res.headersSent = false → (respond host ctx).2.length = some (host.byteLength s)) ∧
      (ctx.res.headersSent = true → (respond host ctx).2.length = ctx.length) := by
  cases hh : ctx.res.headersSent <;>
    simp [respond, hr, hw, he, hm, hb, hj, hh, Context.resEnd, Host.byteLengthOf, jsonChunk,
      Host.callEnd]

/-- The JSON branch on the body 42, with headers unsent and with headers sent. -/
theorem respond_json_body_witness :
    ((respond sampleHost json200).1 =
        sampleHost.endOutcome
          (if json200.res.headersSent = false then
            { json200 with length := some (sampleHost.byteLength "42") }
            else json200)
          (some (Chunk.text "42")) ∧
      (respond sampleHost json200).2.res.calls =
        json200.res.calls ++ [ResCall.resEnd (some (Chunk.text "42"))] ∧
      (json200.res.headersSent = false →
        (respond sampleHost json200).2.length = some (sampleHost.byteLength "42")) ∧
      (json200.res.headersSent = true → (respond sampleHost json200).2.length = json200.length)) ∧
    (respond sampleHost { json200 with res := { json200.res with headersSent := true } }).2.length
      = none :=
  ⟨respond_json_body sampleHost json200 (Plain.num 42) "42" (by decide) rfl rfl (by decide) rfl rfl,
   by decide⟩

/-- C3 as stated fails: with the structured body 42, nothing is written when the
context opted out or is not writable, no body is written under status 204 or for a
`HEAD` request; for a circular body `JSON.stringify` throws, so nothing is ended; and an
`undefined` body is answered with the status message. -/
theorem respond_json_body_counterexample :
    (respond sampleHost { json200 with respond := some false }).2.res.calls = [] ∧
    (respond sampleHost { json200 with writable := false }).2.res.calls = [] ∧
    (respond sampleHost { json200 with res := { json200.res with statusCode := 204 } }).2.res.calls
      = [ResCall.resEnd none] ∧
    (respond sampleHost { json200 with method := "HEAD" }).2.res.calls = [ResCall.resEnd none] ∧
    ((respond sampleHost cyclic200).1 =
        Except.error ⟨"TypeError", "Converting circular structure to JSON"⟩ ∧
      (respond sampleHost cyclic200).2.res.calls = []) ∧
    (respond sampleHost { json200 with body := Body.undefined }).2.res.calls =
      [ResCall.resEnd (some (Chunk.text "OK"))] := by
  decide

/-- C4 (as amended): for a `HEAD` request that has not opted out, is writable, has a
status outside the empty-body class, unsent headers and a body with `isJSON(body)` for
which `JSON.stringify` returns the text `s`, `respond` sets `ctx.length` to the byte
length of `s` and makes exactly the call `res.end()` with no argument; it returns or
throws as that call does. -/
theorem respond_head_json (host : Host) (ctx : Context) (s : String)
    (hr : ctx.respond ≠ some false) (hw : ctx.writable = true)
    (he : host.empty ctx.status = false) (hm : ctx.method = "HEAD")
    (hi : host.isJSON ctx.body = true) (hh : ctx.res.headersSent = false)
    (hj : host.stringify ctx.body = Except.ok (some s)) :
    (respond host ctx).1 =
        host.endOutcome { ctx with length := some (host.byteLength s) } none ∧
      (respond host ctx).2.length = some (host.byteLength s) ∧
      (respond host ctx).2.res.calls = ctx.res.calls ++ [ResCall.resEnd none] := by
  simp [respond, hr, hw, he, hm, hi, hh, hj, Context.resEnd, Host.byteLengthOf, Host.callEnd]

/-- The `HEAD` branch on the body 42 with status 200. -/
theorem respond_head_json_witness :
    (respond sampleHost { json200 with method := "HEAD" }).1 =
        sampleHost.endOutcome
          { ({ json200 with method := "HEAD" } : Context) with
              length := some (sampleHost.byteLength "42") } none ∧
      (respond sampleHost { json200 with method := "HEAD" }).2.length =
        some (sampleHost.byteLength "42") ∧
      (respond sampleHost { json200 with method := "HEAD" }).2.res.calls =
        ({ json200 with method := "HEAD" } : Context).res.calls ++ [ResCall.resEnd none] :=
  respond_head_json sampleHost { json200 with method := "HEAD" } "42" (by decide) rfl rfl rfl rfl
    rfl rfl

/-- C4 as stated fails: for a `HEAD` request with the JSON body 42 and unsent headers,
`ctx.length` stays unset when the context opted out, is not writable, or has status
204; for a circular body `JSON.stringify` throws and `res.end` is never called. -/
theorem respond_head_json_counterexample :
    ((respond sampleHost { json200 with method := "HEAD", respond := some false }).2.length = none ∧
      (respond sampleHost { json200 with method := "HEAD", respond := some false }).2.res.calls
        = []) ∧
    ((respond sampleHost { json200 with method := "HEAD", writable := false }).2.length = none ∧
      (respond sampleHost { json200 with method := "HEAD", writable := false }).2.res.calls
        = []) ∧
    (sampleHost.isJSON (Body.other (Plain.num 42)) = true ∧
      (respond sampleHost
        { json200 with method := "HEAD", res := { json200.res with statusCode := 204 } }).2.length
        = none) ∧
    (sampleHost.isJSON cyclic200.body = true ∧
      (respond sampleHost { cyclic200 with method := "HEAD" }).1 =
        Except.error ⟨"TypeError", "Converting circular structure to JSON"⟩ ∧
      (respond sampleHost { cyclic200 with method := "HEAD" }).2.res.calls = []) := by
  decide

/-- C5 (as amended): one call of `respond` adds to the log of terminal transport calls
(`res.end`, `body.pipe(res)`) no call when the context opted out, is not writable, or
`JSON.stringify` or `Buffer.byteLength` throws where `respond` applies them, and exactly
one call in every other case, whether that call then returns or throws. -/
theorem respond_terminal_actions (host : Host) (ctx : Context) :
    ∃ made : List ResCall,
      (respond host ctx).2.res.calls = ctx.res.calls ++ made ∧
      made.length =
        if ctx.respond = some false ∨ ctx.writable = false ∨ serialisationThrows host ctx = true
        then 0 else 1 := by
  by_cases hr : ctx.respond = some false
  · exact ⟨[], by simp [respond, hr]⟩
  by_cases hw : ctx.writable = false
  · exact ⟨[], by simp [respond, hr, hw]⟩
  have hw1 : ctx.writable = true := by simpa using hw
  by_cases he : host.empty ctx.status = true
  · exact ⟨[ResCall.resEnd none],
      by simp [respond, serialisationThrows, hr, hw1, he, Context.resEnd, Host.callEnd]⟩
  by_cases hm : ctx.method = "HEAD"
  · by_cases hc : ctx.res.headersSent = false ∧ host.isJSON ctx.body = true
    · cases hj : host.stringify ctx.body with
      | error e => exact ⟨[], by simp [respond, serialisationThrows, hr, hw1, he, hm, hc, hj]⟩
      | ok s =>
        cases hl : host.byteLengthOf s with
        | error e =>
          exact ⟨[], by
            simp [respond, serialisationThrows, hr, hw1, he, hm, hc, hj, hl, Except.toBool]⟩
        | ok n =>
          exact ⟨[ResCall.resEnd none], by
            simp [respond, serialisationThrows, hr, hw1, he, hm, hc, hj, hl, Context.resEnd,
              Host.callEnd, Except.toBool]⟩
    · exact ⟨[ResCall.resEnd none], by
        simp [respond, serialisationThrows, hr, hw1, he, hm, hc, Context.resEnd, Host.callEnd]⟩
  cases hb : ctx.body with
  | null =>
    cases hh : ctx.res.headersSent
    · exact ⟨[ResCall.resEnd (some (Chunk.text (orElse ctx.message (toString ctx.status))))], by
        simp [respond, serialisationThrows, hr, hw1, he, hm, hb, hh, Context.resEnd,
          Host.callEnd]⟩
    · exact ⟨[ResCall.resEnd (some (Chunk.text (orElse ctx.message (toString ctx.status))))], by
        simp [respond, serialisationThrows, hr, hw1, he, hm, hb, hh, Context.resEnd,
          Host.callEnd]⟩
  | undefined =>
    cases hh : ctx.res.headersSent
    · exact ⟨[ResCall.resEnd (some (Chunk.text (orElse ctx.message (toString ctx.status))))], by
        simp [respond, serialisationThrows, hr, hw1, he, hm, hb, hh, Context.resEnd,
          Host.callEnd]⟩
    · exact ⟨[ResCall.resEnd (some (Chunk.text (orElse ctx.message (toString ctx.status))))], by
        simp [respond, serialisationThrows, hr, hw1, he, hm, hb, hh, Context.resEnd,
          Host.callEnd]⟩
  | buffer b =>
    exact ⟨[ResCall.resEnd (some (Chunk.bytes b))], by
      simp [respond, serialisationThrows, hr, hw1, he, hm, hb, Context.resEnd, Host.callEnd]⟩
  | string t =>
    exact ⟨[ResCall.resEnd (some (Chunk.text t))], by
      simp [respond, serialisationThrows, hr, hw1, he, hm, hb, Context.resEnd, Host.callEnd]⟩
  | stream id =>
    exact ⟨[ResCall.pipe id], by
      simp [respond, serialisationThrows, hr, hw1, he, hm, hb, Context.pipe, Host.callPipe]⟩
  | other v =>
    cases hj : host.stringify (Body.other v) with
    | error e => exact ⟨[], by simp [respond, serialisationThrows, hr, hw1, he, hm, hb, hj]⟩
    | ok s =>
      cases hh : ctx.res.headersSent
      · cases hl : host.byteLengthOf s with
        | error e =>
          exact ⟨[], by
            simp [respond, serialisationThrows, hr, hw1, he, hm, hb, hj, hh, hl, Except.toBool]⟩
        | ok n =>
          exact ⟨[ResCall.resEnd (jsonChunk s)], by
            simp [respond, serialisationThrows, hr, hw1, he, hm, hb, hj, hh, hl, Context.resEnd,
              Host.callEnd, Except.toBool]⟩
      · exact ⟨[ResCall.resEnd (jsonChunk s)], by
          simp [respond, serialisationThrows, hr, hw1, he, hm, hb, hj, hh, Context.resEnd,
            Host.callEnd]⟩

/-- A call that throws still counts: with a status message Node rejects, `respond` sets
type and length, makes its one call `res.end(t)`, and throws what that call throws. -/
theorem respond_throwing_end :
    (respond sampleHost nonLatin404).1 =
      Except.error ⟨"TypeError", "Invalid character in statusMessage"⟩ ∧
    (respond sampleHost nonLatin404).2.type = some "text" ∧
    (respond sampleHost nonLatin404).2.length = some 19 ∧
    (respond sampleHost nonLatin404).2.res.calls =
      [ResCall.resEnd (some (Chunk.text "не найдено"))] ∧
    serialisationThrows sampleHost nonLatin404 = false := by
  decide

/-- C5 as stated fails: `respond` makes no terminal call at all on a context that opted
out, on one that is not writable, and on one whose circular body makes
`JSON.stringify` throw. -/
theorem respond_terminal_actions_counterexample :
    (respond sampleHost optedOut204).2.res.calls.length = optedOut204.res.calls.length + 0 ∧
    (respond sampleHost unwritable204).2.res.calls.length = unwritable204.res.calls.length + 0 ∧
    (respond sampleHost cyclic200).2.res.calls.length = cyclic200.res.calls.length + 0 := by
  decide

/-! ## Theorems: the request dispatcher -/

/-- C7 (as amended): when the composed handler fulfils, `respond` is invoked exactly
once, and `ctx.onerror` is invoked by the promise chain only if `respond` itself throws,
then exactly once with the error thrown; when the handler rejects with `e`,
`ctx.onerror` is invoked exactly once with `e` and `respond` is not invoked; while the
handler stays pending neither is invoked. -/
theorem handleRequest_terminal_path (host : Host) (ctx : Context)
    (fnMiddleware : Context → Context × Promise) :
    ((fnMiddleware (preset ctx)).2 = Promise.fulfilled →
      (handleRequest host ctx fnMiddleware).2.respondCalls = 1 ∧
      (handleRequest host ctx fnMiddleware).2.onerrorCalls =
        (match (respond host (fnMiddleware (preset ctx)).1).1 with
          | Except.ok _ => []
          | Except.error e => [e])) ∧
    (∀ e, (fnMiddleware (preset ctx)).2 = Promise.rejected e →
      (handleRequest host ctx fnMiddleware).2.respondCalls = 0 ∧
      (handleRequest host ctx fnMiddleware).2.onerrorCalls = [e]) ∧
    ((fnMiddleware (preset ctx)).2 = Promise.pending →
      (handleRequest host ctx fnMiddleware).2.respondCalls = 0 ∧
      (handleRequest host ctx fnMiddleware).2.onerrorCalls = []) := by
  refine ⟨?_, ?_, ?_⟩
  · intro hf
    cases hr : (respond host (fnMiddleware (preset ctx)).1).1 <;>
      simp [handleRequest, Promise.andThen, Promise.orCatch, handleResponse, ctxOnerror] at * <;>
      simp [hf, hr]
  · intro e hf
    simp [handleRequest, Promise.andThen, Promise.orCatch, handleResponse, ctxOnerror] at *
    simp [hf]
  · intro hf
    simp [handleRequest, Promise.andThen, Promise.orCatch, handleResponse, ctxOnerror] at *
    simp [hf]

/-- The two terminal paths on the untouched context: a handler that fulfils, and one
that rejects with a TypeError. -/
theorem handleRequest_terminal_path_witness :
    ((handleRequest sampleHost freshCtx passHandler).2.respondCalls = 1 ∧
      (handleRequest sampleHost freshCtx passHandler).2.onerrorCalls =
        (match (respond sampleHost (passHandler (preset freshCtx)).1).1 with
          | Except.ok _ => []
          | Except.error e => [e])) ∧
    ((handleRequest sampleHost freshCtx (failHandler ⟨"TypeError", "x is not a function"⟩)).2.respondCalls
        = 0 ∧
      (handleRequest sampleHost freshCtx
        (failHandler ⟨"TypeError", "x is not a function"⟩)).2.onerrorCalls
        = [⟨"TypeError", "x is not a function"⟩]) :=
  ⟨(handleRequest_terminal_path sampleHost freshCtx passHandler).1 rfl,
   (handleRequest_terminal_path sampleHost freshCtx
      (failHandler ⟨"TypeError", "x is not a function"⟩)).2.1 _ rfl⟩

/-- C7 as stated fails: a handler that sets a circular body and fulfils makes `respond`
run once and throw, and the chain then invokes `ctx.onerror` with that error, so both
terminal paths run. -/
theorem handleRequest_terminal_path_counterexample :
    (circularHandler (preset freshCtx)).2 = Promise.fulfilled ∧
    (handleRequest sampleHost freshCtx circularHandler).2.respondCalls = 1 ∧
    (handleRequest sampleHost freshCtx circularHandler).2.onerrorCalls =
      [⟨"TypeError", "Converting circular structure to JSON"⟩] := by
  decide

/-! ## Theorems: middleware registration -/

/-- C8: for a value that is not a function, `use` throws the TypeError
'middleware must be a function!' and leaves the application, and so its middleware
sequence, exactly as it was. -/
theorem use_rejects_non_function (convert : Fn → Fn) (app : Application) (v : Value)
    (hv : v.isFunction = false) :
    (use convert app v).1 = Except.error ⟨"TypeError", "middleware must be a function!"⟩ ∧
    (use convert app v).2 = app ∧
    (use convert app v).2.middleware = app.middleware := by
  cases v <;> simp [use, Value.isFunction] at *

/-- Registering the number 3 on an application that already has one middleware. -/
theorem use_rejects_non_function_witness :
    (use id { sampleApp with middleware := [⟨"logger", false⟩] } (Value.number 3)).1 =
      Except.error ⟨"TypeError", "middleware must be a function!"⟩ ∧
    (use id { sampleApp with middleware := [⟨"logger", false⟩] } (Value.number 3)).2 =
      { sampleApp with middleware := [⟨"logger", false⟩] } ∧
    (use id { sampleApp with middleware := [⟨"logger", false⟩] } (Value.number 3)).2.middleware =
      ({ sampleApp with middleware := [⟨"logger", false⟩] } : Application).middleware :=
  use_rejects_non_function id { sampleApp with middleware := [⟨"logger", false⟩] }
    (Value.number 3) rfl

/-! ## Theorems: the default error handler -/

/-- On a numeric status the comparison `404 == status` holds exactly for 404, and it
fails on an unset status. -/
theorem eq404_num (toNumber : String → Option Int) (n : Int) :
    (eq404 toNumber (StatusValue.num n) = true ↔ n = 404) ∧
    eq404 toNumber StatusValue.undefined = false := by
  simp [eq404]

/-- C9: for a genuine Error, `onerror` writes nothing with `console.error` when
`404 == err.status` holds, or `err.expose` is truthy, or the application is silent; in
every other case it writes (a blank line, the indented stack or string form, a blank
line). -/
theorem onerror_output (toNumber : String → Option Int) (app : Application) (err : ErrorArg)
    (he : err.isError = true) :
    ((eq404 toNumber err.status = true ∨ err.expose = true ∨ app.silent = true) →
      onerror toNumber app err = (Except.ok (), [])) ∧
    (¬ (eq404 toNumber err.status = true ∨ err.expose = true ∨ app.silent = true) →
      onerror toNumber app err = (Except.ok (), ["", indent (orElse err.stack err.text), ""]) ∧
      (onerror toNumber app err).2 ≠ []) := by
  constructor
  · intro h
    rcases h with h | h | h <;> simp [onerror, he, h]
  · intro h
    simp only [not_or] at h
    obtain ⟨h1, h2, h3⟩ := h
    simp [onerror, he, h1, h2, h3]

/-- A status-500 error is written; the same error with status 404, or marked for
exposure, or on a silent application, is not. -/
theorem onerror_output_witness :
    (onerror String.toInt? sampleApp sampleError =
        (Except.ok (), ["", indent (orElse sampleError.stack sampleError.text), ""]) ∧
      (onerror String.toInt? sampleApp sampleError).2 ≠ []) ∧
    onerror String.toInt? sampleApp { sampleError with status := StatusValue.num 404 } =
      (Except.ok (), []) ∧
    onerror String.toInt? sampleApp { sampleError with expose := true } = (Except.ok (), []) ∧
    onerror String.toInt? { sampleApp with silent := true } sampleError = (Except.ok (), []) :=
  ⟨(onerror_output String.toInt? sampleApp sampleError rfl).2 (by decide),
   (onerror_output String.toInt? sampleApp { sampleError with status := StatusValue.num 404 }
      rfl).1 (Or.inl rfl),
   (onerror_output String.toInt? sampleApp { sampleError with expose := true } rfl).1
      (Or.inr (Or.inl rfl)),
   (onerror_output String.toInt? { sampleApp with silent := true } sampleError rfl).1
      (Or.inr (Or.inr rfl))⟩

/-! ## Theorems: the context factory -/

/-- A property an object owns is what lookup returns. -/
theorem Heap.get_of_own (h : Heap) (r : Ref) (k : String) (o : Obj) (v : Val)
    (hn : 0 < h.next) (ho : h.objs r = some o) (hl : o.props.lookup k = some v) :
    h.get r k = v := by
  unfold Heap.get
  obtain ⟨n, hn⟩ : ∃ n, h.next = n + 1 := ⟨h.next - 1, (Nat.succ_pred_eq_of_pos hn).symm⟩
  rw [hn, Heap.getFuel, ho]
  simp [hl]

/-- Every lookup on an object without properties and without prototype is undefined. -/
theorem Heap.get_of_empty (h : Heap) (r : Ref) (k : String)
    (ho : h.objs r = some { proto := none, props := [] }) :
    h.get r k = Val.undefined := by
  unfold Heap.get
  cases h.next with
  | zero => rfl
  | succ n => rw [Heap.getFuel, ho]; rfl

/-- A property just assigned is read back. -/
theorem Heap.get_set_same (h : Heap) (r : Ref) (k : String) (v : Val) (o : Obj)
    (hn : 0 < h.next) (ho : h.objs r = some o) : (h.set r k v).get r k = v := by
  apply Heap.get_of_own (h.set r k v) r k
    { o with props := (k, v) :: o.props.filter fun p => p.1 != k } v hn
  · simp [Heap.set, ho]
  · simp [List.lookup]

/-- An assignment leaves every other object alone. -/
theorem Heap.set_objs_of_ne (h : Heap) (r x : Ref) (k : String) (v : Val) (hx : x ≠ r) :
    (h.set r k v).objs x = h.objs x := by
  simp [Heap.set, hx]

/-- The heap `createContext` leaves behind: four new objects at the next four
addresses, everything below untouched. -/
theorem createContext_shape (acc : Accessors) (app : Application) (req : IncomingMessage)
    (res : ServerResponse) (h : Heap) :
    (createContext acc app req res h).2 = h.next ∧
    (createContext acc app req res h).1.next = h.next + 4 ∧
    (createContext acc app req res h).1.objs h.next = some (contextObj acc app req res h.next) ∧
    (createContext acc app req res h).1.objs (h.next + 1) =
      some (requestObj acc app req res h.next) ∧
    (createContext acc app req res h).1.objs (h.next + 2) =
      some (responseObj app req res h.next) ∧
    (createContext acc app req res h).1.objs (h.next + 3) = some { proto := none, props := [] } ∧
    ∀ x, x < h.next → (createContext acc app req res h).1.objs x = h.objs x := by
  refine ⟨rfl, rfl, ?_, ?_, ?_, ?_, ?_⟩
  · simp +arith [createContext, Heap.create, Heap.set, contextObj]
  · simp +arith [createContext, Heap.create, Heap.set, requestObj]
  · simp +arith [createContext, Heap.create, Heap.set, responseObj]
  · simp +arith [createContext, Heap.create, Heap.set]
  · intro x hx
    have h0 : x ≠ h.next := Nat.ne_of_lt hx
    have h1 : x ≠ h.next + 1 := Nat.ne_of_lt (Nat.lt_add_right 1 hx)
    have h2 : x ≠ h.next + 2 := Nat.ne_of_lt (Nat.lt_add_right 2 hx)
    have h3 : x ≠ h.next + 3 := Nat.ne_of_lt (Nat.lt_add_right 3 hx)
    simp +arith [createContext, Heap.create, Heap.set, h0, h1, h2, h3]

/-- Three objects of the shape `createContext` builds are wired to each other. -/
theorem wired_of_objs (acc : Accessors) (app : Application) (req : IncomingMessage)
    (res : ServerResponse) (h : Heap) (n : Ref) (pos : 0 < h.next)
    (hc : h.objs n = some (contextObj acc app req res n))
    (hq : h.objs (n + 1) = some (requestObj acc app req res n))
    (hs : h.objs (n + 2) = some (responseObj app req res n)) :
    Wired h n (n + 1) (n + 2) req res ∧ h.get n "state" = Val.ref (n + 3) := by
  refine ⟨⟨?_, ?_, ?_, ?_, ?_, ?_, ?_, ?_, ?_, ?_, ?_, ?_⟩, ?_⟩
  all_goals first
    | exact Heap.get_of_own _ _ _ _ _ pos hc (by simp [List.lookup, contextObj])
    | exact Heap.get_of_own _ _ _ _ _ pos hq (by simp [List.lookup, requestObj])
    | exact Heap.get_of_own _ _ _ _ _ pos hs (by simp [List.lookup, responseObj])

/-- C10: the context returned by `createContext(req, res)` holds its request and
response views, each view holds the context and the other view, all three hold the
handles `req` and `res`, and its state map is a new object without properties. After a
second call for another transport pair the first context is still wired as before, the
two contexts, their views and their state maps are pairwise different objects, and a
property written to one state map is read back there and is undefined in the other. -/
theorem createContext_wiring_isolated (acc : Accessors) (app : Application)
    (req1 : IncomingMessage) (res1 : ServerResponse) (req2 : IncomingMessage)
    (res2 : ServerResponse) (h : Heap) :
    ∃ rq1 rs1 st1 rq2 rs2 st2 : Ref,
      (Wired (createContext acc app req1 res1 h).1 (createContext acc app req1 res1 h).2
          rq1 rs1 req1 res1 ∧
        (createContext acc app req1 res1 h).1.get (createContext acc app req1 res1 h).2 "state"
          = Val.ref st1 ∧
        (createContext acc app req1 res1 h).1.objs st1 = some { proto := none, props := [] }) ∧
      (Wired (secondContext acc app req1 res1 req2 res2 h).1
          (secondContext acc app req1 res1 req2 res2 h).2 rq2 rs2 req2 res2 ∧
        (secondContext acc app req1 res1 req2 res2 h).1.get
          (secondContext acc app req1 res1 req2 res2 h).2 "state" = Val.ref st2 ∧
        (secondContext acc app req1 res1 req2 res2 h).1.objs st2
          = some { proto := none, props := [] }) ∧
      (Wired (secondContext acc app req1 res1 req2 res2 h).1
          (createContext acc app req1 res1 h).2 rq1 rs1 req1 res1 ∧
        (secondContext acc app req1 res1 req2 res2 h).1.get
          (createContext acc app req1 res1 h).2 "state" = Val.ref st1 ∧
        (secondContext acc app req1 res1 req2 res2 h).1.objs st1
          = some { proto := none, props := [] }) ∧
      (createContext acc app req1 res1 h).2 ≠ (secondContext acc app req1 res1 req2 res2 h).2 ∧
      rq1 ≠ rq2 ∧ rs1 ≠ rs2 ∧ st1 ≠ st2 ∧
      ∀ (k : String) (v : Val),
        ((secondContext acc app req1 res1 req2 res2 h).1.set st1 k v).get st1 k = v ∧
        ((secondContext acc app req1 res1 req2 res2 h).1.set st1 k v).get st2 k = Val.undefined ∧
        ((secondContext acc app req1 res1 req2 res2 h).1.set st2 k v).get st2 k = v ∧
        ((secondContext acc app req1 res1 req2 res2 h).1.set st2 k v).get st1 k = Val.undefined := by
  obtain ⟨e1, n1, c1, q1, s1, t1, _⟩ := createContext_shape acc app req1 res1 h
  obtain ⟨e2, n2, c2, q2, s2, t2, f2⟩ :=
    createContext_shape acc app req2 res2 (createContext acc app req1 res1 h).1
  have lt0 : h.next < (createContext acc app req1 res1 h).1.next := by
    rw [n1]; exact Nat.lt_add_of_pos_right (by decide)
  have lt1 : h.next + 1 < (createContext acc app req1 res1 h).1.next := by
    rw [n1]; exact Nat.add_lt_add_left (by decide) _
  have lt2 : h.next + 2 < (createContext acc app req1 res1 h).1.next := by
    rw [n1]; exact Nat.add_lt_add_left (by decide) _
  have lt3 : h.next + 3 < (createContext acc app req1 res1 h).1.next := by
    rw [n1]; exact Nat.add_lt_add_left (by decide) _
  have pos1 : 0 < (createContext acc app req1 res1 h).1.next :=
    Nat.lt_of_le_of_lt (Nat.zero_le _) lt0
  have pos2 : 0 < (secondContext acc app req1 res1 req2 res2 h).1.next := by
    unfold secondContext; rw [n2]; exact Nat.succ_pos _
  have c1' := (f2 _ lt0).trans c1
  have q1' := (f2 _ lt1).trans q1
  have s1' := (f2 _ lt2).trans s1
  have t1' := (f2 _ lt3).trans t1
  have ne3 : h.next + 3 ≠ (createContext acc app req1 res1 h).1.next + 3 := by
    rw [n1]; simp +arith
  refine ⟨h.next + 1, h.next + 2, h.next + 3,
    (createContext acc app req1 res1 h).1.next + 1, (createContext acc app req1 res1 h).1.next + 2,
    (createContext acc app req1 res1 h).1.next + 3, ?_, ?_, ?_, ?_, ?_, ?_, ?_, ?_⟩
  · rw [e1]
    exact ⟨(wired_of_objs acc app req1 res1 _ _ pos1 c1 q1 s1).1,
      (wired_of_objs acc app req1 res1 _ _ pos1 c1 q1 s1).2, t1⟩
  · unfold secondContext
    rw [e2]
    exact ⟨(wired_of_objs acc app req2 res2 _ _ pos2 c2 q2 s2).1,
      (wired_of_objs acc app req2 res2 _ _ pos2 c2 q2 s2).2, t2⟩
  · rw [e1]
    exact ⟨(wired_of_objs acc app req1 res1 _ _ pos2 c1' q1' s1').1,
      (wired_of_objs acc app req1 res1 _ _ pos2 c1' q1' s1').2, t1'⟩
  · unfold secondContext
    rw [e1, e2, n1]; simp +arith
  · rw [n1]; simp +arith
  · rw [n1]; simp +arith
  · exact ne3
  · intro k v
    refine ⟨Heap.get_set_same _ _ k v _ pos2 t1', ?_, Heap.get_set_same _ _ k v _ pos2 t2, ?_⟩
    · apply Heap.get_of_empty
      rw [Heap.set_objs_of_ne _ _ _ _ _ (Ne.symm ne3)]
      exact t2
    · apply Heap.get_of_empty
      rw [Heap.set_objs_of_ne _ _ _ _ _ ne3]
      exact t1'

end Koa
